import Mathlib

/-!
Shallow embedding of the SSH key backend of the `keymaker` / `keysmith`
repository (files `src/keymaker/models/ssh_key.py`,
`src/keysmith/backend/ssh_operations.py`, `src/keysmith/backend/key_scanner.py`).

Modelling conventions:
* Filesystem paths are modelled by their final component relative to the key
  directory (`~/.ssh`); the set of files present in that directory is a
  `List String` (no duplicates are ever inserted).
* External process invocations (`ssh-keygen`, `ssh-copy-id`) are modelled by a
  function parameter mapping an argument vector (and piped stdin, where used)
  to a `RunResult` (exit code, stdout, stderr).
* Python string primitives used by the source (`str.split()`, `str.strip()`,
  `int(...)`, `' '.join`, `Path.with_suffix`) are reproduced faithfully below.
* Exceptions become `Except` values; the error message strings follow the
  source, including its double wrapping of messages by outer `except` blocks.
-/

/-- Whitespace characters recognised by Python's `str.split()` / `str.strip()`
(ASCII subset; the source only ever meets ASCII tool output). -/
def isPySpace (c : Char) : Bool :=
  c = ' ' || c = '\t' || c = '\n' || c = '\r' || c = '\x0b' || c = '\x0c'

/-- Worker for `pySplitWs`: walk the characters, `acc` holds the (reversed)
current token; emit a token at each whitespace boundary and at the end. -/
def splitWsAux : List Char → List Char → List String
  | [], acc => if acc.isEmpty then [] else [String.mk acc.reverse]
  | c :: rest, acc =>
      if isPySpace c then
        (if acc.isEmpty then [] else [String.mk acc.reverse]) ++ splitWsAux rest []
      else splitWsAux rest (c :: acc)

/-- Python `str.split()` with no separator: split on runs of whitespace,
discarding empty pieces. -/
def pySplitWs (s : String) : List String :=
  splitWsAux s.data []

/-- Python `str.strip()` on a character list. -/
def pyStripCs (cs : List Char) : List Char :=
  ((cs.dropWhile isPySpace).reverse.dropWhile isPySpace).reverse

/-- Python `str.strip()`. -/
def pyStrip (s : String) : String :=
  String.mk (pyStripCs s.data)

/-- Accumulate decimal digits, allowing single underscores between digits,
as Python's `int()` does (`int("1_0") = 10`, `int("1__0")` raises). -/
def pyDigitsAux : List Char → Nat → Option Nat
  | [], acc => some acc
  | '_' :: c :: rest, acc =>
      if c.isDigit then pyDigitsAux rest (acc * 10 + (c.toNat - 48)) else none
  | ['_'], _ => none
  | c :: rest, acc =>
      if c.isDigit then pyDigitsAux rest (acc * 10 + (c.toNat - 48)) else none

/-- Python `int(token)` on a whitespace-free token: optional sign followed by
decimal digits (single underscores permitted between digits); `none` models
the `ValueError`. -/
def pyIntParse (s : String) : Option Int :=
  match s.data with
  | '-' :: c :: rest =>
      if c.isDigit then (pyDigitsAux rest (c.toNat - 48)).map (fun n => -(n : Int))
      else none
  | '+' :: c :: rest =>
      if c.isDigit then (pyDigitsAux rest (c.toNat - 48)).map (fun n => (n : Int))
      else none
  | c :: rest =>
      if c.isDigit then (pyDigitsAux rest (c.toNat - 48)).map (fun n => (n : Int))
      else none
  | [] => none

/-- Python `' '.join(parts)`. -/
def joinSpace : List String → String
  | [] => ""
  | [t] => t
  | t :: ts => t ++ " " ++ joinSpace ts

/-- Does `hay` start with `needle`? (character-list version) -/
def csHasLead (needle hay : List Char) : Bool :=
  List.isPrefixOf needle hay

/-- Does `hay` contain `needle` as a contiguous substring?
Models Python's `needle in hay` for strings. -/
def csContainsSub (needle : List Char) : List Char → Bool
  | [] => csHasLead needle []
  | c :: rest => csHasLead needle (c :: rest) || csContainsSub needle rest

/-- Python `needle in hay` on strings. -/
def containsSub (needle hay : String) : Bool :=
  csContainsSub needle.data hay.data

/-- Does `s` end with `suffix`? (list-based, models Python `str.endswith`) -/
def strEndsWith (s suffix : String) : Bool :=
  List.isPrefixOf suffix.data.reverse s.data.reverse

/-- Number of newline characters in a string (= number of newline-terminated
lines of a string that ends in a newline). -/
def countNewlines (s : String) : Nat :=
  s.data.count '\n'

/-- The `suffix` property of CPython's `pathlib.PurePath`, on a path's final
component: the part from the last dot on, provided that dot is neither the
first nor the last character; otherwise empty. -/
def pySuffixCs (cs : List Char) : List Char :=
  match cs.reverse.findIdx? (fun c => c = '.') with
  | none => []
  | some j =>
      let i := cs.length - 1 - j
      if 0 < i ∧ i < cs.length - 1 then cs.drop i else []

/-- CPython's `Path(name).with_suffix(suffix)` on a path's final component:
drop the existing suffix (if any) and append `suffix`.  Note this REPLACES a
final extension: `withSuffix "key.old" ".pub" = "key.pub"`, while
`withSuffix "id_ed25519" ".pub" = "id_ed25519.pub"`. -/
def withSuffix (name suffix : String) : String :=
  let cs := name.data
  String.mk (cs.take (cs.length - (pySuffixCs cs).length) ++ suffix.data)

/-- Lowercase a string (ASCII), modelling Python `str.lower()` for the
ASCII-only type tags compared by the spec. -/
def pyLower (s : String) : String :=
  String.mk (s.data.map Char.toLower)

/-- `SSHKeyType` enumeration (`src/keymaker/models/ssh_key.py`, lines 11-15). -/
inductive SSHKeyType where
  | ed25519
  | rsa
  | ecdsa
deriving DecidableEq, Repr

/-- The `.value` string of each `SSHKeyType` member. -/
def SSHKeyType.value : SSHKeyType → String
  | .ed25519 => "ed25519"
  | .rsa => "rsa"
  | .ecdsa => "ecdsa"

/-- `SSHKey` model (`src/keymaker/models/ssh_key.py`, lines 18-35).  Paths are
the final path components (see the file header); `last_modified` is an opaque
timestamp.  The two path field validators in the source only inspect the
filesystem without ever rejecting, so construction is total. -/
structure SSHKey where
  private_path : String
  public_path : String
  key_type : SSHKeyType
  fingerprint : String
  comment : Option String
  last_modified : Nat
  bit_size : Option Int
deriving DecidableEq, Repr

/-- `KeyGenerationRequest` field record (`src/keymaker/models/ssh_key.py`,
lines 74-95); built only through `mkKeyGenerationRequest` below. -/
structure KeyGenerationRequest where
  key_type : SSHKeyType
  filename : String
  passphrase : Option String
  comment : Option String
  rsa_bits : Option Int
deriving DecidableEq, Repr

/-- The pydantic field constraints on `KeyGenerationRequest.filename`:
pattern `[a-zA-Z0-9_.-]+`, length 1..255, and the extra
`validate_filename_safe` checks (must not start with `.` or `-`). -/
def filenameOk (s : String) : Bool :=
  s.length ≥ 1 && s.length ≤ 255
    && s.data.all (fun c => c.isAlphanum || c = '_' || c = '.' || c = '-')
    && !(csHasLead ".".data s.data) && !(csHasLead "-".data s.data)

/-- The pydantic field constraint on `KeyGenerationRequest.rsa_bits`:
`ge=2048, le=8192` when a value is supplied, `None` always accepted. -/
def rsaBitsFieldOk : Option Int → Bool
  | none => true
  | some b => 2048 ≤ b && b ≤ 8192

/-- Construction of a `KeyGenerationRequest`: pydantic runs the field
validators first (pattern / range), then the `validate_rsa_bits` model
validator nulls `rsa_bits` for non-RSA key types
(`src/keymaker/models/ssh_key.py`, lines 86-112). -/
def mkKeyGenerationRequest (key_type : SSHKeyType) (filename : String)
    (passphrase comment : Option String) (rsa_bits : Option Int) :
    Except String KeyGenerationRequest :=
  if ¬ filenameOk filename then
    .error "invalid filename"
  else if ¬ rsaBitsFieldOk rsa_bits then
    .error "rsa_bits out of range"
  else
    .ok { key_type := key_type
          filename := filename
          passphrase := passphrase
          comment := comment
          rsa_bits := if key_type = SSHKeyType.rsa then rsa_bits else none }

/-- `KeyDeletionRequest` (`src/keymaker/models/ssh_key.py`, lines 120-137). -/
structure KeyDeletionRequest where
  ssh_key : SSHKey
  confirm : Bool
deriving DecidableEq, Repr

/-- Construction of a `KeyDeletionRequest` under pydantic v2 semantics:
`confirm` is `some c` when the caller supplies a value and `none` when it is
omitted.  The `validate_confirmation` field validator runs only on a supplied
value (pydantic v2 does not validate defaults — `validate_default` is false),
so an omitted `confirm` silently takes the default `False` without any
validation, while a supplied `confirm = False` raises
`Deletion must be confirmed`. -/
def mkKeyDeletionRequest (key : SSHKey) (confirm : Option Bool) :
    Except String KeyDeletionRequest :=
  match confirm with
  | none => .ok { ssh_key := key, confirm := false }
  | some c =>
      if c then .ok { ssh_key := key, confirm := c }
      else .error "Deletion must be confirmed"

/-- `PassphraseChangeRequest` (`src/keymaker/models/ssh_key.py`, lines
140-149). -/
structure PassphraseChangeRequest where
  ssh_key : SSHKey
  current_passphrase : Option String
  new_passphrase : Option String
deriving DecidableEq, Repr

/-- `SSHCopyIDRequest` (`src/keymaker/models/ssh_key.py`, lines 152-172);
`port` is `Optional[int]` with default 22. -/
structure SSHCopyIDRequest where
  ssh_key : SSHKey
  hostname : String
  username : String
  port : Option Int
deriving DecidableEq, Repr

/-- Python `str(x)` for the optional port (`str(None) = "None"`). -/
def portStr : Option Int → String
  | some p => toString p
  | none => "None"

/-- `SSHCopyIDRequest.get_command` (`src/keymaker/models/ssh_key.py`, lines
174-184): `ssh-copy-id -i <pub>` plus ` -p <port>` when `port != 22`, plus
` <user>@<host>`. -/
def get_command (r : SSHCopyIDRequest) : String :=
  "ssh-copy-id -i " ++ r.ssh_key.public_path
    ++ (if r.port ≠ some 22 then " -p " ++ portStr r.port else "")
    ++ " " ++ r.username ++ "@" ++ r.hostname

/-- Result of one external process invocation. -/
structure RunResult where
  exitCode : Nat
  stdout : String
  stderr : String
deriving DecidableEq, Repr

/-- Error kinds raised by the backend operations (all are
`SSHOperationError` in the source; the constructor records which raise site
produced it, the carried string is the message / path). -/
inductive SSHErr where
  | alreadyExists (msg : String)
  | notFound (path : String)
  | toolFailed (msg : String)
  | parseFailed (msg : String)
deriving DecidableEq, Repr

/-- Fingerprint extraction from one line of `ssh-keygen -lf` output
(`ssh_operations.py`, lines 133-140): second whitespace token, error if the
line has fewer than two tokens. -/
def fingerprintFromLine (line : String) : Option String :=
  (pySplitWs line).get? 1

/-- Key type extraction from one line of `ssh-keygen -lf` output
(`ssh_operations.py`, lines 181-191): case-sensitive substring containment of
the exact tags, tested in the order RSA, ED25519, ECDSA. -/
def keyTypeFromLine (line : String) : Option SSHKeyType :=
  if containsSub "(RSA)" line then some SSHKeyType.rsa
  else if containsSub "(ED25519)" line then some SSHKeyType.ed25519
  else if containsSub "(ECDSA)" line then some SSHKeyType.ecdsa
  else none

/-- Bit size extraction from one line of `ssh-keygen -lf` output
(`key_scanner.py`, lines 157-167): `int()` of the first whitespace token,
`none` when the line is empty or the token does not parse. -/
def bitSizeFromLine (line : String) : Option Int :=
  match pySplitWs line with
  | [] => none
  | p :: _ => pyIntParse p

/-- The spec's `parseFingerprintLine` amalgam of the three source parsers,
applied to one (already stripped) line of `ssh-keygen -lf` output. -/
def parseFingerprintLine (line : String) :
    Option Int × Option String × Option SSHKeyType :=
  (bitSizeFromLine line, fingerprintFromLine line, keyTypeFromLine line)

/-- Modelled from the spec (claim C2's own words), for comparison with the
source behaviour: the key type of the TRAILING whitespace token when it is
parenthesized and its inside matches one of the tags RSA / ED25519 / ECDSA
CASE-INSENSITIVELY. -/
def claimKeyTypeFromLine (line : String) : Option SSHKeyType :=
  match (pySplitWs line).getLast? with
  | none => none
  | some tok =>
      match tok.data with
      | [] => none
      | c :: rest =>
          if c = '(' ∧ rest.getLast? = some ')' then
            let tag := pyLower (String.mk rest.dropLast)
            if tag = "rsa" then some SSHKeyType.rsa
            else if tag = "ed25519" then some SSHKeyType.ed25519
            else if tag = "ecdsa" then some SSHKeyType.ecdsa
            else none
          else none

/-- Target file selection shared by `get_fingerprint` (lines 110-114) and
`get_key_type` (lines 158-162): use the `with_suffix(".pub")` sibling when it
exists, otherwise the given path itself. -/
def lfTarget (fs : List String) (keyPath : String) : String :=
  if withSuffix keyPath ".pub" ∈ fs then withSuffix keyPath ".pub" else keyPath

/-- `get_fingerprint` (`ssh_operations.py`, lines 98-143).  `fs` is the set of
existing files, `run` the process invoker.  The not-found raise precedes the
`try` block, so it is not re-wrapped; failures inside the `try` are wrapped by
the outer `except` a second time, exactly as the source strings do. -/
def get_fingerprint (fs : List String) (keyPath : String)
    (run : List String → RunResult) : Except SSHErr String :=
  let target := lfTarget fs keyPath
  if target ∈ fs then
    let r := run ["ssh-keygen", "-lf", target]
    if r.exitCode ≠ 0 then
      .error (.toolFailed
        ("Failed to get fingerprint: Failed to get fingerprint: " ++ r.stderr))
    else
      match (pySplitWs (pyStrip r.stdout)).get? 1 with
      | some fp => .ok fp
      | none =>
          .error (.parseFailed
            "Failed to get fingerprint: Unable to parse fingerprint")
  else
    .error (.notFound target)

/-- `get_key_type` (`ssh_operations.py`, lines 146-194), same shape as
`get_fingerprint` with the substring-containment type classification. -/
def get_key_type (fs : List String) (keyPath : String)
    (run : List String → RunResult) : Except SSHErr SSHKeyType :=
  let target := lfTarget fs keyPath
  if target ∈ fs then
    let r := run ["ssh-keygen", "-lf", target]
    if r.exitCode ≠ 0 then
      .error (.toolFailed
        ("Failed to determine key type: Failed to determine key type: "
          ++ r.stderr))
    else
      match keyTypeFromLine (pyStrip r.stdout) with
      | some t => .ok t
      | none => .error (.parseFailed "Failed to determine key type: Unknown key type")
  else
    .error (.notFound target)

/-- `_extract_comment_from_public_key` (`key_scanner.py`, lines 110-131),
applied to the public key file's contents: strip, split on whitespace, and
when at least three tokens are present join everything after the second one
with single spaces; otherwise `none`. -/
def extractCommentFromPublicKey (content : String) : Option String :=
  let parts := pySplitWs (pyStrip content)
  if parts.length ≥ 3 then some (joinSpace (parts.drop 2))
  else none

/-- One directory entry as seen by `Path.iterdir()`: a name and whether it is
a regular file. -/
structure FsEntry where
  name : String
  isFile : Bool
deriving DecidableEq, Repr

/-- State of the scanned directory: missing, existing but not a directory, or
a directory with its entries. -/
inductive DirState where
  | missing
  | notDir
  | dir (entries : List FsEntry)
deriving DecidableEq, Repr

/-- The reserved non-key file names skipped by the scanner. -/
def reservedNames : List String := ["config", "known_hosts", "authorized_keys"]

/-- The candidate private key names collected by `scan_ssh_directory`
(`key_scanner.py`, lines 34-46): regular files, name not ending in `.pub`,
not reserved, with an existing `with_suffix('.pub')` sibling (`exists()` is
true for any entry of that name, file or not). -/
def scanCandidates (entries : List FsEntry) : List String :=
  entries.filterMap (fun e =>
    if e.isFile && !(strEndsWith e.name ".pub") && !(reservedNames.contains e.name)
        && entries.any (fun e2 => e2.name == withSuffix e.name ".pub")
    then some e.name else none)

/-- `scan_ssh_directory` (`key_scanner.py`, lines 12-63).  `build` abstracts
`_build_ssh_key_model`: `none` covers both a raised exception (caught by the
per-key `except ... continue`) and a `None` result; either way the key is
dropped and the loop continues. -/
def scan_ssh_directory (d : DirState) (build : String → Option SSHKey) :
    Except String (List SSHKey) :=
  match d with
  | .missing => .ok []
  | .notDir => .error "SSH directory is not a directory"
  | .dir entries => .ok ((scanCandidates entries).filterMap build)

/-- Boolean success test for an `Except` value. -/
def isOkE {ε α : Type} : Except ε α → Bool
  | .ok _ => true
  | .error _ => false

/-- Outcome of `delete_key_pair`: the surviving files and the collected error
messages (the source raises `SSHOperationError("; ".join(errors))` iff
`errors` is nonempty). -/
structure DelOutcome where
  fs : List String
  errors : List String
deriving DecidableEq, Repr

/-- `delete_key_pair` (`ssh_operations.py`, lines 244-270).  `unlinkErr path`
is `some msg` when `path.unlink()` would raise (message text of the raised
exception), `none` when it would succeed.  Each of the two files is deleted
only if it exists (absence is silent success); failures are collected, never
short-circuited. -/
def delete_key_pair (fs : List String) (unlinkErr : String → Option String)
    (key : SSHKey) : DelOutcome :=
  let step1 : List String × List String :=
    if key.private_path ∈ fs then
      match unlinkErr key.private_path with
      | some m => (["Failed to delete private key: " ++ m], fs)
      | none => ([], fs.filter (fun p => p ≠ key.private_path))
    else ([], fs)
  let step2 : List String × List String :=
    if key.public_path ∈ step1.2 then
      match unlinkErr key.public_path with
      | some m => (["Failed to delete public key: " ++ m], step1.2)
      | none => ([], step1.2.filter (fun p => p ≠ key.public_path))
    else ([], step1.2)
  { fs := step2.2, errors := step1.1 ++ step2.1 }

/-- Whether `delete_key_pair` raises (`if errors: raise ...`). -/
def deleteRaises (o : DelOutcome) : Bool := !o.errors.isEmpty

/-- Python truthiness of an optional string (`None` and `""` are falsy). -/
def optTruthy : Option String → Bool
  | none => false
  | some s => s != ""

/-- The piped stdin built by `change_passphrase` (`ssh_operations.py`, lines
222-233): current passphrase (or an empty line), then — when the new
passphrase is truthy — the new passphrase twice (entry and confirmation), or
two empty lines otherwise; every line newline-terminated. -/
def change_passphrase_stdin (cur new : Option String) : String :=
  (if optTruthy cur then cur.getD "" ++ "\n" else "\n")
    ++ (if optTruthy new then new.getD "" ++ "\n" ++ (new.getD "" ++ "\n")
        else "\n\n")

/-- `change_passphrase` (`ssh_operations.py`, lines 197-241).  The
missing-private-key raise precedes the `try` block; a nonzero exit raises
inside it and is re-wrapped by the outer `except`, giving the doubled message
prefix. -/
def change_passphrase (fs : List String) (req : PassphraseChangeRequest)
    (run : List String → String → RunResult) : Except SSHErr Unit :=
  let keyPath := req.ssh_key.private_path
  if keyPath ∈ fs then
    let r := run ["ssh-keygen", "-p", "-f", keyPath]
      (change_passphrase_stdin req.current_passphrase req.new_passphrase)
    if r.exitCode ≠ 0 then
      .error (.toolFailed
        ("Failed to change passphrase: Passphrase change failed: " ++ r.stderr))
    else .ok ()
  else
    .error (.notFound keyPath)

/-- Insert a file name into the directory contents (no duplicates). -/
def fsInsert (fs : List String) (n : String) : List String :=
  if n ∈ fs then fs else n :: fs

/-- The argument vector built by `generate_key` (`ssh_operations.py`, lines
41-61): `-t <type>`, then `-b <bits>` for RSA (Python `str(None) = "None"`
when `rsa_bits` is absent) or a fixed `-b 256` for ECDSA, then `-f <path>`,
`-C <comment>` only when the comment is truthy, and always `-N <passphrase>`
(empty string for no passphrase). -/
def buildGenCmd (req : KeyGenerationRequest) : List String :=
  ["ssh-keygen", "-t", req.key_type.value]
    ++ (match req.key_type with
        | .ed25519 => []
        | .rsa => ["-b", portStr req.rsa_bits]
        | .ecdsa => ["-b", "256"])
    ++ ["-f", req.filename]
    ++ (if optTruthy req.comment then ["-C", req.comment.getD ""] else [])
    ++ ["-N", req.passphrase.getD ""]

/-- Outcome of `generate_key`: every external invocation made (in order), the
resulting directory contents, and the returned record or error. -/
structure GenOutcome where
  calls : List (List String)
  fs : List String
  result : Except SSHErr SSHKey
deriving Repr

/-- `generate_key` (`ssh_operations.py`, lines 18-95).  The `.ssh` directory
creation (line 35) does not alter files and is a no-op here.  The collision
check (line 38) tests the filename and its `with_suffix(".pub")` sibling and
aborts before any invocation.  On success the external tool creates
`<filename>` and `<filename>.pub` (literal append — what `ssh-keygen -f`
actually does), the private file is chmod'ed (permissions not modelled), and
the fingerprint is derived by a fresh `ssh-keygen -lf` invocation through
`get_fingerprint`; `run` answers both invocations.  A nonzero generation exit
is modelled as leaving the directory unchanged; its message carries the
outer `except` re-wrap (`Failed to execute ssh-keygen: `) around the inner
raise, as the source produces. -/
def generate_key (fs : List String) (req : KeyGenerationRequest)
    (run : List String → RunResult) : GenOutcome :=
  let name := req.filename
  if name ∈ fs ∨ withSuffix name ".pub" ∈ fs then
    { calls := []
      fs := fs
      result := .error (.alreadyExists ("Key " ++ name ++ " already exists")) }
  else
    let cmd := buildGenCmd req
    let r := run cmd
    if r.exitCode ≠ 0 then
      { calls := [cmd]
        fs := fs
        result := .error (.toolFailed
          ("Failed to execute ssh-keygen: Key generation failed: "
            ++ r.stderr)) }
    else
      let fs1 := fsInsert (fsInsert fs name) (name ++ ".pub")
      let fpCall := ["ssh-keygen", "-lf", lfTarget fs1 name]
      match get_fingerprint fs1 name run with
      | .error e => { calls := [cmd, fpCall], fs := fs1, result := .error e }
      | .ok fp =>
          { calls := [cmd, fpCall]
            fs := fs1
            result := .ok
              { private_path := name
                public_path := withSuffix name ".pub"
                key_type := req.key_type
                fingerprint := fp
                comment := req.comment
                last_modified := 0
                bit_size := if req.key_type = SSHKeyType.rsa then req.rsa_bits
                            else none } }

/-- Modelled from the amended claim C2: first token parsed as the bit size by
Python `int` semantics (failure tolerated as `none`), second token as the
fingerprint, and the key type by CASE-SENSITIVE substring containment of the
exact tags, tested in the order RSA, ED25519, ECDSA, anywhere in the line. -/
def amendedParseFingerprintLine (line : String) :
    Option Int × Option String × Option SSHKeyType :=
  ((pySplitWs line).head?.bind pyIntParse,
   ((pySplitWs line).drop 1).head?,
   if containsSub "(RSA)" line then some SSHKeyType.rsa
   else if containsSub "(ED25519)" line then some SSHKeyType.ed25519
   else if containsSub "(ECDSA)" line then some SSHKeyType.ecdsa
   else none)

/-- The normalized result of constructing an Ed25519 request with
`rsa_bits = 4096`: the bits are nulled. -/
def c7edReq : KeyGenerationRequest :=
  { key_type := SSHKeyType.ed25519, filename := "k"
    passphrase := none, comment := none, rsa_bits := none }

/-- The result of constructing an RSA request with `rsa_bits = 2500`. -/
def c7badReq : KeyGenerationRequest :=
  { key_type := SSHKeyType.rsa, filename := "k"
    passphrase := none, comment := none, rsa_bits := some 2500 }

/-- The result of constructing an RSA request with `rsa_bits = 3000`. -/
def c7rsaOut : KeyGenerationRequest :=
  { key_type := SSHKeyType.rsa, filename := "k"
    passphrase := none, comment := none, rsa_bits := some 3000 }

/-- A sample key record used by the concrete instantiations below. -/
def sampleKey (priv pub : String) : SSHKey :=
  { private_path := priv
    public_path := pub
    key_type := SSHKeyType.ed25519
    fingerprint := "SHA256:sample"
    comment := none
    last_modified := 0
    bit_size := none }

/-- Generation request with the dotted filename `key.old`. -/
def c1req : KeyGenerationRequest :=
  { key_type := SSHKeyType.ed25519, filename := "key.old"
    passphrase := none, comment := none, rsa_bits := none }

/-- Generation request with the undotted filename `id_a`. -/
def c1wreq : KeyGenerationRequest :=
  { key_type := SSHKeyType.ed25519, filename := "id_a"
    passphrase := none, comment := none, rsa_bits := none }

/-- Process invoker that always succeeds with a plausible `-lf` output. -/
def okRun : List String → RunResult :=
  fun _ => { exitCode := 0, stdout := "256 SHA256:abc comment (ED25519)", stderr := "" }

/-- The key pair of the C4 example. -/
def c4key : SSHKey := sampleKey "/home/x/.ssh/id_ed25519" "/home/x/.ssh/id_ed25519.pub"

/-- The C4 example request with the default port. -/
def c4req22 : SSHCopyIDRequest :=
  { ssh_key := c4key, hostname := "example.com", username := "alice", port := some 22 }

/-- The C4 example request with a custom port. -/
def c4req2222 : SSHCopyIDRequest :=
  { ssh_key := c4key, hostname := "example.com", username := "alice", port := some 2222 }

/-- Directory entries for the scanner instantiation: two complete pairs and a
reserved file. -/
def wentries : List FsEntry :=
  [⟨"id_a", true⟩, ⟨"id_a.pub", true⟩, ⟨"id_b", true⟩, ⟨"id_b.pub", true⟩,
   ⟨"config", true⟩]

/-- The record built for `id_a`. -/
def wrecA : SSHKey := sampleKey "id_a" "id_a.pub"

/-- A per-key builder that succeeds for `id_a` and fails for every other key
(modelling an exception inside `_build_ssh_key_model`). -/
def wbuild : String → Option SSHKey := fun k => if k = "id_a" then some wrecA else none

/-- The key pair of the deletion instantiation. -/
def wkey6 : SSHKey := sampleKey "id_c" "id_c.pub"

/-- An unlink behaviour where deleting the private file raises. -/
def wfail6 : String → Option String :=
  fun p => if p = "id_c" then some "Permission denied" else none

/-- The key pair of the deletion-request instantiation. -/
def wkey9 : SSHKey := sampleKey "id_d" "id_d.pub"

/-- A confirmed deletion request. -/
def wreq9 : KeyDeletionRequest := { ssh_key := wkey9, confirm := true }

/-- The request produced by omitting `confirm`: silently unconfirmed. -/
def wreq9un : KeyDeletionRequest := { ssh_key := wkey9, confirm := false }

/-- A record with the same file pair as `wkey9` but different metadata. -/
def wkey9alt : SSHKey :=
  { private_path := "id_d"
    public_path := "id_d.pub"
    key_type := SSHKeyType.ed25519
    fingerprint := "SHA256:other"
    comment := some "x"
    last_modified := 5
    bit_size := none }

/-- A passphrase change request with both passphrases supplied. -/
def wpcr : PassphraseChangeRequest :=
  { ssh_key := sampleKey "id_p" "id_p.pub"
    current_passphrase := some "old", new_passphrase := some "new" }

/-- A stdin-consuming invoker that fails with a bad-passphrase diagnostic. -/
def wrun8 : List String → String → RunResult :=
  fun _ _ => { exitCode := 1, stdout := "", stderr := "incorrect passphrase" }

/-- A stdin-consuming invoker that succeeds. -/
def wrun8ok : List String → String → RunResult :=
  fun _ _ => { exitCode := 0, stdout := "", stderr := "" }

/-- An invoker that only answers `ssh-keygen -lf id.old` successfully, so a
successful lookup proves the invocation targeted the private file. -/
def c10run : List String → RunResult :=
  fun argv =>
    if argv = ["ssh-keygen", "-lf", "id.old"] then
      { exitCode := 0, stdout := "256 SHA256:abc c (ED25519)", stderr := "" }
    else { exitCode := 1, stdout := "", stderr := "unexpected target" }

theorem str_eq_empty_of_length (s : String) (h : s.length = 0) : s = "" := by
  cases s with
  | mk data =>
    have hd : data = [] := List.length_eq_zero.mp h
    subst hd
    rfl

theorem mk_reverse_ne_empty (acc : List Char) (ha : acc.isEmpty = false) :
    String.mk acc.reverse ≠ "" := by
  intro he
  have hrev : acc.reverse = [] := by
    have hd := congrArg String.data he
    simpa using hd
  rw [List.reverse_eq_nil_iff] at hrev
  subst hrev
  simp at ha

theorem splitWsAux_ne (cs : List Char) :
    ∀ (acc : List Char) (t : String), t ∈ splitWsAux cs acc → t ≠ "" := by
  induction cs with
  | nil =>
    intro acc t h
    simp only [splitWsAux] at h
    by_cases ha : acc.isEmpty
    · rw [if_pos ha] at h
      simp at h
    · rw [if_neg ha] at h
      simp at h
      subst h
      exact mk_reverse_ne_empty acc (by simpa using ha)
  | cons c rest ih =>
    intro acc t h
    simp only [splitWsAux] at h
    by_cases hc : isPySpace c
    · rw [if_pos hc] at h
      rcases List.mem_append.mp h with h1 | h2
      · by_cases ha : acc.isEmpty
        · rw [if_pos ha] at h1
          simp at h1
        · rw [if_neg ha] at h1
          simp at h1
          subst h1
          exact mk_reverse_ne_empty acc (by simpa using ha)
      · exact ih [] t h2
    · rw [if_neg hc] at h
      exact ih (c :: acc) t h

theorem mem_pySplitWs_ne (s t : String) (h : t ∈ pySplitWs s) : t ≠ "" :=
  splitWsAux_ne s.data [] t h

theorem joinSpace_ne_empty (t : String) (ts : List String) (h : t ≠ "") :
    joinSpace (t :: ts) ≠ "" := by
  cases ts with
  | nil =>
    intro he
    have ht : joinSpace [t] = t := rfl
    rw [ht] at he
    exact h he
  | cons u us =>
    have hu : joinSpace (t :: u :: us) = t ++ " " ++ joinSpace (u :: us) := rfl
    intro he
    rw [hu] at he
    have hl := congrArg String.length he
    rw [String.length_append, String.length_append] at hl
    have hsp : (" " : String).length = 1 := rfl
    have hE : ("" : String).length = 0 := rfl
    rw [hsp, hE] at hl
    exact h (str_eq_empty_of_length t (by omega))

theorem countNewlines_append (a b : String) :
    countNewlines (a ++ b) = countNewlines a + countNewlines b := by
  simp [countNewlines, String.data_append, List.count_append]

/-- C3: `parsePublicKeyComment`, applied to a public key file's contents,
returns the text after the second whitespace-separated token joined with
single spaces when three or more tokens are present, returns `none` (never
`some ""`) when fewer than three tokens are present; in particular
`"ssh-ed25519 AAAA user@host"` yields `"user@host"` and `"ssh-ed25519 AAAA"`
yields `none`. -/
theorem extract_comment_c3 (content : String) :
    ((pySplitWs (pyStrip content)).length ≥ 3 →
      extractCommentFromPublicKey content =
        some (joinSpace ((pySplitWs (pyStrip content)).drop 2)))
    ∧ ((pySplitWs (pyStrip content)).length < 3 →
        extractCommentFromPublicKey content = none)
    ∧ extractCommentFromPublicKey content ≠ some ""
    ∧ extractCommentFromPublicKey "ssh-ed25519 AAAA user@host" = some "user@host"
    ∧ extractCommentFromPublicKey "ssh-ed25519 AAAA" = none := by
  refine ⟨?_, ?_, ?_, by decide, by decide⟩
  · intro h3
    simp only [extractCommentFromPublicKey]
    rw [if_pos h3]
  · intro hlt
    simp only [extractCommentFromPublicKey]
    rw [if_neg (by omega)]
  · simp only [extractCommentFromPublicKey]
    by_cases h3 : (pySplitWs (pyStrip content)).length ≥ 3
    · rw [if_pos h3]
      intro he
      have hjoin : joinSpace ((pySplitWs (pyStrip content)).drop 2) = "" :=
        Option.some.inj he
      cases hd : (pySplitWs (pyStrip content)).drop 2 with
      | nil =>
        have := congrArg List.length hd
        simp [List.length_drop] at this
        omega
      | cons t ts =>
        have hmem : t ∈ pySplitWs (pyStrip content) :=
          List.mem_of_mem_drop (hd ▸ List.mem_cons_self t ts)
        exact joinSpace_ne_empty t ts (mem_pySplitWs_ne _ _ hmem) (hd ▸ hjoin)
    · rw [if_neg h3]
      simp

/-- C2 counterexample: the source's key type detection is a CASE-SENSITIVE
substring containment test, not a case-insensitive match of the trailing
parenthesized token: on `... (rsa)` the claim's parse yields RSA while the
code fails, and on a line whose `(RSA)` is not the trailing token the claim's
parse yields no type while the code yields RSA. -/
theorem keyTypeFromLine_c2_counterexample :
    claimKeyTypeFromLine "2048 SHA256:abcd user@host (rsa)" = some SSHKeyType.rsa
    ∧ keyTypeFromLine "2048 SHA256:abcd user@host (rsa)" = none
    ∧ claimKeyTypeFromLine "2048 SHA256:abcd (RSA) trailing" = none
    ∧ keyTypeFromLine "2048 SHA256:abcd (RSA) trailing" = some SSHKeyType.rsa := by
  decide

/-- C2 (amended): `parseFingerprintLine` yields the first whitespace token
parsed as the integer bit size (parse failure tolerated as `none`), the
second token as the fingerprint, and the key type by case-sensitive substring
containment of the exact tags `(RSA)`, `(ED25519)`, `(ECDSA)` tested in that
order; in particular `"2048 SHA256:abcd user@host (RSA)"` yields bit size
2048, fingerprint `"SHA256:abcd"` and type RSA. -/
theorem parseFingerprintLine_c2 (line : String) :
    parseFingerprintLine line = amendedParseFingerprintLine line
    ∧ parseFingerprintLine "2048 SHA256:abcd user@host (RSA)" =
        (some 2048, some "SHA256:abcd", some SSHKeyType.rsa)
    ∧ parseFingerprintLine "256 SHA256:xyz user@host (ED25519)" =
        (some 256, some "SHA256:xyz", some SSHKeyType.ed25519) := by
  refine ⟨?_, by decide, by decide⟩
  unfold parseFingerprintLine amendedParseFingerprintLine
  unfold bitSizeFromLine fingerprintFromLine
  cases h : pySplitWs line with
  | nil => simp [h, keyTypeFromLine]
  | cons p rest =>
    cases rest with
    | nil => simp [h, keyTypeFromLine]
    | cons q rest2 => simp [h, keyTypeFromLine]

/-- C4: `get_command` produces exactly
`ssh-copy-id -i <pub> <user>@<host>` when the port equals 22 and exactly
`ssh-copy-id -i <pub> -p <port> <user>@<host>` otherwise, with the claim's
two concrete examples. -/
theorem get_command_c4 (key : SSHKey) (host user : String) (p : Int) :
    (p = 22 →
      get_command { ssh_key := key, hostname := host, username := user, port := some p } =
        "ssh-copy-id -i " ++ key.public_path ++ " " ++ user ++ "@" ++ host)
    ∧ (p ≠ 22 →
        get_command { ssh_key := key, hostname := host, username := user, port := some p } =
          "ssh-copy-id -i " ++ key.public_path ++ " -p " ++ toString p ++ " "
            ++ user ++ "@" ++ host)
    ∧ get_command c4req22 =
        "ssh-copy-id -i /home/x/.ssh/id_ed25519.pub alice@example.com"
    ∧ get_command c4req2222 =
        "ssh-copy-id -i /home/x/.ssh/id_ed25519.pub -p 2222 alice@example.com" := by
  refine ⟨?_, ?_, by decide, by decide⟩
  · rintro rfl
    simp [get_command]
  · intro hp
    have hne : some p ≠ some (22 : Int) := by simpa using hp
    simp only [get_command, if_pos hne, portStr]
    apply String.ext
    simp [String.data_append]

/-- C9 counterexample: constructing a deletion request with `confirm`
omitted is NOT rejected — pydantic does not validate the default `False` —
and `deletePair`, which never inspects `confirm`, proceeds to delete both
files of the unconfirmed request's key pair. -/
theorem deletion_confirm_c9_counterexample :
    mkKeyDeletionRequest wkey9 none = .ok wreq9un
    ∧ wreq9un.confirm = false
    ∧ delete_key_pair ["id_d", "id_d.pub"] (fun _ => none) wreq9un.ssh_key =
        { fs := [], errors := [] } := by
  refine ⟨rfl, rfl, by decide⟩

/-- C9 (amended): a deletion request constructed with an EXPLICIT
`confirmed = false` is rejected at construction, and every request
constructed from a supplied value has `confirm = true`; but a request
constructed with `confirmed` omitted silently carries the default
`confirm = false`, and `deletePair`'s behaviour is determined by the record's
two file paths alone — it never inspects `confirmed` — so deletion is only
guarded when `confirmed` is explicitly supplied. -/
theorem deletion_confirm_c9 (key : SSHKey) (c : Bool) (req : KeyDeletionRequest)
    (fs : List String) (u : String → Option String) (k2 : SSHKey) :
    mkKeyDeletionRequest key (some false) = .error "Deletion must be confirmed"
    ∧ (mkKeyDeletionRequest key (some c) = .ok req → req.confirm = true)
    ∧ mkKeyDeletionRequest key none = .ok { ssh_key := key, confirm := false }
    ∧ (key.private_path = k2.private_path → key.public_path = k2.public_path →
        delete_key_pair fs u key = delete_key_pair fs u k2) := by
  refine ⟨rfl, ?_, rfl, ?_⟩
  · intro h
    cases c with
    | false => simp [mkKeyDeletionRequest] at h
    | true =>
      simp [mkKeyDeletionRequest] at h
      rw [← h]
  · intro h1 h2
    simp only [delete_key_pair, h1, h2]

/-- Witness for C9: an explicitly confirmed request, and `deletePair`
agreeing on two records that share the file pair but nothing else. -/
theorem deletion_confirm_c9_witness :
    wreq9.confirm = true
    ∧ delete_key_pair ["id_d", "id_d.pub"] (fun _ => none) wkey9 =
        delete_key_pair ["id_d", "id_d.pub"] (fun _ => none) wkey9alt := by
  refine ⟨?_, ?_⟩
  · exact (deletion_confirm_c9 wkey9 true wreq9 [] (fun _ => none) wkey9).2.1 rfl
  · exact (deletion_confirm_c9 wkey9 true wreq9 ["id_d", "id_d.pub"]
      (fun _ => none) wkey9alt).2.2.2 rfl rfl

/-- Witness for C3 at a three-token and a two-token input. -/
theorem extract_comment_c3_witness :
    extractCommentFromPublicKey "ssh-rsa KEYDATA a b" =
      some (joinSpace ((pySplitWs (pyStrip "ssh-rsa KEYDATA a b")).drop 2))
    ∧ extractCommentFromPublicKey "ssh-rsa KEYDATA" = none :=
  ⟨(extract_comment_c3 "ssh-rsa KEYDATA a b").1 (by decide),
   (extract_comment_c3 "ssh-rsa KEYDATA").2.1 (by decide)⟩

/-- Witness for C4 at ports 22 and 2222. -/
theorem get_command_c4_witness :
    get_command c4req22 =
      "ssh-copy-id -i " ++ c4key.public_path ++ " " ++ "alice" ++ "@" ++ "example.com"
    ∧ get_command c4req2222 =
        "ssh-copy-id -i " ++ c4key.public_path ++ " -p " ++ toString (2222 : Int)
          ++ " " ++ "alice" ++ "@" ++ "example.com" :=
  ⟨(get_command_c4 c4key "example.com" "alice" 22).1 rfl,
   (get_command_c4 c4key "example.com" "alice" 2222).2.1 (by decide)⟩

/-- C5: the scanner errs exactly when the path exists and is not a directory,
returns the empty list for a missing directory, and a per-key build failure
drops only that key — the scan still returns exactly the records of every key
whose build succeeds. -/
theorem scan_c5 (d : DirState) (build : String → Option SSHKey) :
    (isOkE (scan_ssh_directory d build) = false ↔ d = DirState.notDir)
    ∧ (d = DirState.missing → scan_ssh_directory d build = .ok [])
    ∧ (∀ entries, d = DirState.dir entries →
        scan_ssh_directory d build = .ok ((scanCandidates entries).filterMap build)
        ∧ ∀ k r, k ∈ scanCandidates entries → build k = some r →
            r ∈ (scanCandidates entries).filterMap build) := by
  refine ⟨?_, ?_, ?_⟩
  · cases d <;> simp [scan_ssh_directory, isOkE]
  · rintro rfl
    rfl
  · rintro entries rfl
    exact ⟨rfl, fun k r hk hb => List.mem_filterMap.mpr ⟨k, hk, hb⟩⟩

/-- Witness for C5: a directory with two complete pairs whose builder fails
on `id_b` still returns the record of `id_a`; a missing directory scans to
the empty list. -/
theorem scan_c5_witness :
    scan_ssh_directory (DirState.dir wentries) wbuild =
      .ok ((scanCandidates wentries).filterMap wbuild)
    ∧ wrecA ∈ (scanCandidates wentries).filterMap wbuild
    ∧ scan_ssh_directory DirState.missing wbuild = .ok [] := by
  have h := (scan_c5 (DirState.dir wentries) wbuild).2.2 wentries rfl
  exact ⟨h.1, h.2 "id_a" wrecA (by decide) (by decide),
    (scan_c5 DirState.missing wbuild).2.1 rfl⟩

theorem not_mem_filter_self (l : List String) (a : String) :
    a ∉ l.filter (fun p => p ≠ a) := by
  simp [List.mem_filter]

theorem not_mem_filter_of_not_mem (l : List String) (q : String → Bool)
    (a : String) (h : a ∉ l) : a ∉ l.filter q :=
  fun hm => h (List.mem_of_mem_filter hm)

theorem delete_key_pair_absent (fs : List String) (u : String → Option String)
    (key : SSHKey) (hp : key.private_path ∉ fs) (hq : key.public_path ∉ fs) :
    delete_key_pair fs u key = { fs := fs, errors := [] } := by
  simp [delete_key_pair, hp, hq]

theorem delete_key_pair_gone (fs : List String) (u : String → Option String)
    (key : SSHKey) (h : (delete_key_pair fs u key).errors = []) :
    key.private_path ∉ (delete_key_pair fs u key).fs
    ∧ key.public_path ∉ (delete_key_pair fs u key).fs := by
  by_cases hp : key.private_path ∈ fs
  · cases hu : u key.private_path with
    | some m =>
      exfalso
      simp [delete_key_pair, hp, hu] at h
    | none =>
      by_cases hq : key.public_path ∈ fs
      · by_cases hpq : key.public_path = key.private_path
        · constructor <;>
            simp [delete_key_pair, hp, hu, hq, hpq, List.mem_filter]
        · cases hu2 : u key.public_path with
          | some m2 =>
            exfalso
            simp [delete_key_pair, hp, hu, hq, hpq, hu2] at h
          | none =>
            constructor <;>
              simp [delete_key_pair, hp, hu, hq, hpq, hu2, List.mem_filter]
      · constructor <;>
          simp [delete_key_pair, hp, hu, hq, List.mem_filter]
  · by_cases hq : key.public_path ∈ fs
    · cases hu2 : u key.public_path with
      | some m2 =>
        exfalso
        simp [delete_key_pair, hp, hq, hu2] at h
      | none =>
        constructor <;>
          simp [delete_key_pair, hp, hq, hu2, List.mem_filter]
    · rw [delete_key_pair_absent fs u key hp hq]
      exact ⟨hp, hq⟩

/-- C6: `deletePair` treats an absent file as silent success and leaves the
directory unchanged when both files are absent; the public file is still
deleted when the private deletion fails; real failures are collected into a
single aggregate error listing each of them, raised only after both attempts;
and after an error-free run a second call (under any unlink behaviour) never
raises. -/
theorem delete_key_pair_c6 (fs : List String)
    (u uSecond : String → Option String) (key : SSHKey) :
    (key.private_path ∉ fs → key.public_path ∉ fs →
      delete_key_pair fs u key = { fs := fs, errors := [] })
    ∧ ((delete_key_pair fs u key).errors = [] →
        delete_key_pair (delete_key_pair fs u key).fs uSecond key =
          { fs := (delete_key_pair fs u key).fs, errors := [] })
    ∧ (∀ m, key.private_path ∈ fs → u key.private_path = some m →
        key.public_path ∈ fs → u key.public_path = none →
          (delete_key_pair fs u key).fs = fs.filter (fun p => p ≠ key.public_path)
          ∧ (delete_key_pair fs u key).errors =
              ["Failed to delete private key: " ++ m])
    ∧ (∀ m1 m2, key.private_path ∈ fs → u key.private_path = some m1 →
        key.public_path ∈ fs → u key.public_path = some m2 →
          (delete_key_pair fs u key).errors =
            ["Failed to delete private key: " ++ m1,
              "Failed to delete public key: " ++ m2]) := by
  refine ⟨?_, ?_, ?_, ?_⟩
  · exact delete_key_pair_absent fs u key
  · intro h
    have hg := delete_key_pair_gone fs u key h
    exact delete_key_pair_absent _ uSecond key hg.1 hg.2
  · intro m hp hu hq hu2
    constructor
    · simp [delete_key_pair, hp, hu, hq, hu2]
    · simp [delete_key_pair, hp, hu, hq, hu2]
  · intro m1 m2 hp hu hq hu2
    simp [delete_key_pair, hp, hu, hq, hu2]

/-- Witness for C6: both files absent is a silent no-op, and a private-side
unlink failure still deletes the public file while raising one error. -/
theorem delete_key_pair_c6_witness :
    delete_key_pair ["other"] wfail6 wkey6 = { fs := ["other"], errors := [] }
    ∧ (delete_key_pair ["id_c", "id_c.pub"] wfail6 wkey6).fs =
        (["id_c", "id_c.pub"]).filter (fun p => p ≠ wkey6.public_path)
    ∧ (delete_key_pair ["id_c", "id_c.pub"] wfail6 wkey6).errors =
        ["Failed to delete private key: " ++ "Permission denied"] := by
  have h1 := (delete_key_pair_c6 ["other"] wfail6 wfail6 wkey6).1
    (by decide) (by decide)
  have h2 := (delete_key_pair_c6 ["id_c", "id_c.pub"] wfail6 wfail6 wkey6).2.2.1
    "Permission denied" (by decide) (by decide) (by decide) (by decide)
  exact ⟨h1, h2.1, h2.2⟩

/-- C7 counterexample: the code validates `rsa_bits` against the range
2048..8192, not the claimed four-element set — an RSA request with 2500 bits
is accepted at construction. -/
theorem rsa_bits_c7_counterexample :
    mkKeyGenerationRequest SSHKeyType.rsa "k" none none (some 2500) = .ok c7badReq
    ∧ c7badReq.rsa_bits = some 2500
    ∧ (2500 : Int) ∉ ([2048, 3072, 4096, 8192] : List Int) := by
  refine ⟨rfl, rfl, by decide⟩

/-- C7 (amended): `rsaBits` is restricted at construction to the range
2048 ≤ bits ≤ 8192 (values outside it are rejected), and when the key type is
not RSA the constructed request has `rsaBits = none` regardless of the value
supplied; constructing with Ed25519 and 4096 normalizes to `none`. -/
theorem rsa_bits_c7 (kt : SSHKeyType) (fn : String) (pp cm : Option String)
    (bits : Option Int) (req : KeyGenerationRequest) :
    (mkKeyGenerationRequest kt fn pp cm bits = .ok req →
      (∀ b, req.rsa_bits = some b → 2048 ≤ b ∧ b ≤ 8192)
      ∧ (kt ≠ SSHKeyType.rsa → req.rsa_bits = none))
    ∧ (∀ b, bits = some b → (b < 2048 ∨ 8192 < b) →
        isOkE (mkKeyGenerationRequest kt fn pp cm bits) = false)
    ∧ mkKeyGenerationRequest SSHKeyType.ed25519 "k" none none (some 4096) =
        .ok c7edReq := by
  refine ⟨?_, ?_, rfl⟩
  · intro h
    by_cases h1 : filenameOk fn
    case neg => simp [mkKeyGenerationRequest, h1] at h
    by_cases h2 : rsaBitsFieldOk bits
    case neg => simp [mkKeyGenerationRequest, h1, h2] at h
    simp [mkKeyGenerationRequest, h1, h2] at h
    constructor
    · intro b hb
      rw [← h] at hb
      by_cases hkt : kt = SSHKeyType.rsa
      · simp [hkt] at hb
        rw [hb] at h2
        simpa [rsaBitsFieldOk] using h2
      · simp [hkt] at hb
    · intro hkt
      rw [← h]
      simp [hkt]
  · intro b hb hout
    subst hb
    by_cases h1 : filenameOk fn
    · have h2 : rsaBitsFieldOk (some b) = false := by
        simp [rsaBitsFieldOk]
        omega
      simp [mkKeyGenerationRequest, h1, h2, isOkE]
    · simp [mkKeyGenerationRequest, h1, isOkE]

/-- Witness for C7: 3000 bits is accepted and bounded, 9000 bits is rejected,
and the Ed25519 example normalizes to `none`. -/
theorem rsa_bits_c7_witness :
    ((2048 : Int) ≤ 3000 ∧ (3000 : Int) ≤ 8192)
    ∧ isOkE (mkKeyGenerationRequest SSHKeyType.rsa "k" none none (some 9000)) = false
    ∧ c7edReq.rsa_bits = none := by
  refine ⟨?_, ?_, ?_⟩
  · exact ((rsa_bits_c7 SSHKeyType.rsa "k" none none (some 3000) c7rsaOut).1
      rfl).1 3000 rfl
  · exact (rsa_bits_c7 SSHKeyType.rsa "k" none none (some 9000) c7rsaOut).2.1
      9000 rfl (by norm_num)
  · exact ((rsa_bits_c7 SSHKeyType.ed25519 "k" none none (some 4096) c7edReq).1
      rfl).2 (by decide)

theorem countNewlines_zero_of_not_mem (s : String) (h : '\n' ∉ s.data) :
    countNewlines s = 0 :=
  List.count_eq_zero.mpr h

/-- C8 counterexample: the piped stdin for current passphrase `a` and new
passphrase `b` is `a\nb\nb\n`, which consists of three newline-terminated
lines, not four as claimed. -/
theorem change_passphrase_c8_counterexample :
    change_passphrase_stdin (some "a") (some "b") = "a\nb\nb\n"
    ∧ countNewlines (change_passphrase_stdin (some "a") (some "b")) = 3
    ∧ (3 : Nat) ≠ 4 := by
  refine ⟨by decide, by decide, by decide⟩

/-- C8 (amended): `changePassphrase` fails with a missing-private-key error
when the record's private key file does not exist, and otherwise invokes
`ssh-keygen -p -f <path>` feeding it piped stdin of THREE newline-terminated
lines — current passphrase (or empty), new passphrase (or empty), and the new
passphrase repeated as confirmation, in that fixed order — with a nonzero
exit producing an error carrying the raw stderr. -/
theorem change_passphrase_c8 (fs : List String) (req : PassphraseChangeRequest)
    (run : List String → String → RunResult) :
    (req.ssh_key.private_path ∉ fs →
      change_passphrase fs req run = .error (.notFound req.ssh_key.private_path))
    ∧ (req.ssh_key.private_path ∈ fs →
        ((run ["ssh-keygen", "-p", "-f", req.ssh_key.private_path]
            (change_passphrase_stdin req.current_passphrase
              req.new_passphrase)).exitCode = 0 →
          change_passphrase fs req run = .ok ())
        ∧ ((run ["ssh-keygen", "-p", "-f", req.ssh_key.private_path]
              (change_passphrase_stdin req.current_passphrase
                req.new_passphrase)).exitCode ≠ 0 →
            change_passphrase fs req run =
              .error (.toolFailed
                ("Failed to change passphrase: Passphrase change failed: "
                  ++ (run ["ssh-keygen", "-p", "-f", req.ssh_key.private_path]
                        (change_passphrase_stdin req.current_passphrase
                          req.new_passphrase)).stderr))))
    ∧ (∀ c n, c ≠ "" → n ≠ "" →
        change_passphrase_stdin (some c) (some n) =
          c ++ "\n" ++ (n ++ "\n") ++ (n ++ "\n"))
    ∧ (∀ cur new2, (∀ s, cur = some s → '\n' ∉ s.data) →
        (∀ s, new2 = some s → '\n' ∉ s.data) →
        countNewlines (change_passphrase_stdin cur new2) = 3) := by
  refine ⟨?_, ?_, ?_, ?_⟩
  · intro hp
    simp [change_passphrase, hp]
  · intro hp
    constructor
    · intro hz
      simp [change_passphrase, hp, hz]
    · intro hz
      simp [change_passphrase, hp, hz]
  · intro c n hc hn
    simp only [change_passphrase_stdin, optTruthy]
    rw [if_pos (by simpa using hc), if_pos (by simpa using hn)]
    apply String.ext
    simp [String.data_append]
  · intro cur new2 hcur hnew
    rw [change_passphrase_stdin, countNewlines_append]
    have hA : countNewlines (if optTruthy cur then cur.getD "" ++ "\n" else "\n") = 1 := by
      cases cur with
      | none =>
        rw [if_neg (by simp [optTruthy])]
        decide
      | some s =>
        by_cases hs : optTruthy (some s)
        · rw [if_pos hs]
          have h0 : countNewlines s = 0 :=
            countNewlines_zero_of_not_mem s (hcur s rfl)
          rw [show (some s).getD "" = s from rfl, countNewlines_append, h0]
          decide
        · rw [if_neg hs]
          decide
    have hB : countNewlines
        (if optTruthy new2 then new2.getD "" ++ "\n" ++ (new2.getD "" ++ "\n")
         else "\n\n") = 2 := by
      cases new2 with
      | none =>
        rw [if_neg (by simp [optTruthy])]
        decide
      | some s =>
        by_cases hs : optTruthy (some s)
        · rw [if_pos hs]
          have h0 : countNewlines s = 0 :=
            countNewlines_zero_of_not_mem s (hnew s rfl)
          rw [show (some s).getD "" = s from rfl, countNewlines_append,
            countNewlines_append, h0]
          have h1 : countNewlines "\n" = 1 := by decide
          omega
        · rw [if_neg hs]
          decide
    omega

/-- Witness for C8 at the concrete request `wpcr` and invokers
`wrun8` / `wrun8ok`. -/
theorem change_passphrase_c8_witness :
    change_passphrase [] wpcr wrun8 = .error (.notFound wpcr.ssh_key.private_path)
    ∧ change_passphrase ["id_p"] wpcr wrun8ok = .ok ()
    ∧ change_passphrase ["id_p"] wpcr wrun8 =
        .error (.toolFailed
          ("Failed to change passphrase: Passphrase change failed: "
            ++ (wrun8 ["ssh-keygen", "-p", "-f", wpcr.ssh_key.private_path]
                  (change_passphrase_stdin wpcr.current_passphrase
                    wpcr.new_passphrase)).stderr))
    ∧ change_passphrase_stdin (some "old") (some "new") =
        "old" ++ "\n" ++ ("new" ++ "\n") ++ ("new" ++ "\n")
    ∧ countNewlines (change_passphrase_stdin (some "old") (some "new")) = 3 := by
  refine ⟨?_, ?_, ?_, ?_, ?_⟩
  · exact (change_passphrase_c8 [] wpcr wrun8).1 (by decide)
  · exact ((change_passphrase_c8 ["id_p"] wpcr wrun8ok).2.1 (by decide)).1 rfl
  · exact ((change_passphrase_c8 ["id_p"] wpcr wrun8).2.1 (by decide)).2 (by decide)
  · exact (change_passphrase_c8 [] wpcr wrun8).2.2.1 "old" "new"
      (by decide) (by decide)
  · exact (change_passphrase_c8 [] wpcr wrun8).2.2.2 (some "old") (some "new")
      (fun s hs => by injection hs with hs; subst hs; decide)
      (fun s hs => by injection hs with hs; subst hs; decide)

theorem mem_fsInsert_self (fs : List String) (n : String) : n ∈ fsInsert fs n := by
  by_cases h : n ∈ fs
  · simp [fsInsert, h]
  · simp [fsInsert, h]

theorem mem_fsInsert_of_mem (fs : List String) (m n : String) (h : m ∈ fs) :
    m ∈ fsInsert fs n := by
  by_cases h2 : n ∈ fs <;> simp [fsInsert, h2, h]

/-- C1 counterexample: for the dotted filename `key.old`, the target public
file `key.old.pub` exists, yet `generate_key` invokes `ssh-keygen` and
proceeds (the collision check inspects `with_suffix`, i.e. `key.pub`). -/
theorem generate_key_c1_counterexample :
    ("key.old" ++ ".pub") ∈ ["key.old.pub"]
    ∧ (generate_key ["key.old.pub"] c1req okRun).calls ≠ []
    ∧ isOkE (generate_key ["key.old.pub"] c1req okRun).result = true := by
  refine ⟨by decide, by decide, by decide⟩

/-- C1 (amended): `generate` fails with `AlreadyExists` — without invoking
`ssh-keygen` and without altering the directory — exactly when `<filename>`
or the file obtained by replacing `<filename>`'s final extension with `.pub`
(appending `.pub` when there is none) already exists; and after a successful
`generate`, a second call with identical parameters always fails this way
instead of overwriting the first key pair. -/
theorem generate_key_c1 (fs : List String) (req : KeyGenerationRequest)
    (run run2 : List String → RunResult) :
    ((req.filename ∈ fs ∨ withSuffix req.filename ".pub" ∈ fs) →
      generate_key fs req run =
        { calls := [], fs := fs
          result := .error (.alreadyExists
            ("Key " ++ req.filename ++ " already exists")) })
    ∧ (isOkE (generate_key fs req run).result = true →
        req.filename ∈ (generate_key fs req run).fs
        ∧ generate_key (generate_key fs req run).fs req run2 =
            { calls := [], fs := (generate_key fs req run).fs
              result := .error (.alreadyExists
                ("Key " ++ req.filename ++ " already exists")) }) := by
  constructor
  · intro hcol
    simp only [generate_key]
    rw [if_pos hcol]
  · intro hok
    by_cases hcol : req.filename ∈ fs ∨ withSuffix req.filename ".pub" ∈ fs
    · exfalso
      simp only [generate_key] at hok
      rw [if_pos hcol] at hok
      simp [isOkE] at hok
    · by_cases hexit : (run (buildGenCmd req)).exitCode ≠ 0
      · exfalso
        simp only [generate_key] at hok
        rw [if_neg hcol, if_pos hexit] at hok
        simp [isOkE] at hok
      · have hcoll : ∀ g : List String, req.filename ∈ g →
            generate_key g req run2 =
              { calls := [], fs := g
                result := .error (.alreadyExists
                  ("Key " ++ req.filename ++ " already exists")) } := by
          intro g hg
          simp only [generate_key]
          rw [if_pos (Or.inl hg)]
        have hfs : (generate_key fs req run).fs =
            fsInsert (fsInsert fs req.filename) (req.filename ++ ".pub") := by
          simp only [generate_key]
          rw [if_neg hcol, if_neg hexit]
          cases hfp : get_fingerprint
              (fsInsert (fsInsert fs req.filename) (req.filename ++ ".pub"))
              req.filename run <;>
            simp [hfp]
        have hmem : req.filename ∈ (generate_key fs req run).fs := by
          rw [hfs]
          exact mem_fsInsert_of_mem _ _ _ (mem_fsInsert_self fs req.filename)
        exact ⟨hmem, hcoll _ hmem⟩

/-- Witness for C1: a collision aborts untouched, and a successful generation
followed by an identical call fails with `AlreadyExists`. -/
theorem generate_key_c1_witness :
    generate_key ["id_a"] c1wreq okRun =
      { calls := [], fs := ["id_a"]
        result := .error (.alreadyExists ("Key " ++ "id_a" ++ " already exists")) }
    ∧ "id_a" ∈ (generate_key [] c1wreq okRun).fs
    ∧ generate_key (generate_key [] c1wreq okRun).fs c1wreq okRun =
        { calls := [], fs := (generate_key [] c1wreq okRun).fs
          result := .error (.alreadyExists
            ("Key " ++ "id_a" ++ " already exists")) } := by
  have h2 := (generate_key_c1 [] c1wreq okRun okRun).2 (by decide)
  exact ⟨(generate_key_c1 ["id_a"] c1wreq okRun okRun).1 (Or.inl (by decide)),
    h2.1, h2.2⟩

/-- C10 counterexample: for the dotted path `id.old` whose sibling
`id.old.pub` exists, the `-lf` invocation targets the private file `id.old`
itself (the code checks `with_suffix`, i.e. `id.pub`): the invoker `c10run`
succeeds only on the argv naming `id.old`, and the lookup succeeds. -/
theorem lf_target_c10_counterexample :
    ("id.old" ++ ".pub") ∈ ["id.old", "id.old.pub"]
    ∧ lfTarget ["id.old", "id.old.pub"] "id.old" = "id.old"
    ∧ get_fingerprint ["id.old", "id.old.pub"] "id.old" c10run = .ok "SHA256:abc" := by
  refine ⟨by decide, by decide, rfl⟩

/-- C10 (amended): the fingerprint and key-type operations invoke
`ssh-keygen -lf` on the file obtained by replacing the path's final extension
with `.pub` (appending when there is none) whenever that file exists,
otherwise on the given path itself, and fail with a not-found error exactly
when that chosen target is missing. -/
theorem lf_target_c10 (fs : List String) (keyPath : String)
    (run : List String → RunResult) :
    (withSuffix keyPath ".pub" ∈ fs →
      lfTarget fs keyPath = withSuffix keyPath ".pub")
    ∧ (withSuffix keyPath ".pub" ∉ fs → lfTarget fs keyPath = keyPath)
    ∧ (∀ p, get_fingerprint fs keyPath run = .error (.notFound p) ↔
        lfTarget fs keyPath ∉ fs ∧ p = lfTarget fs keyPath)
    ∧ (∀ p, get_key_type fs keyPath run = .error (.notFound p) ↔
        lfTarget fs keyPath ∉ fs ∧ p = lfTarget fs keyPath) := by
  refine ⟨?_, ?_, ?_, ?_⟩
  · intro h
    simp [lfTarget, h]
  · intro h
    simp [lfTarget, h]
  · intro p
    by_cases hmem : lfTarget fs keyPath ∈ fs
    · simp only [get_fingerprint]
      rw [if_pos hmem]
      constructor
      · intro h
        split at h
        · simp at h
        · split at h <;> simp at h
      · rintro ⟨hc, _⟩
        exact absurd hmem hc
    · simp only [get_fingerprint]
      rw [if_neg hmem]
      simp [hmem, eq_comm]
  · intro p
    by_cases hmem : lfTarget fs keyPath ∈ fs
    · simp only [get_key_type]
      rw [if_pos hmem]
      constructor
      · intro h
        split at h
        · simp at h
        · split at h <;> simp at h
      · rintro ⟨hc, _⟩
        exact absurd hmem hc
    · simp only [get_key_type]
      rw [if_neg hmem]
      simp [hmem, eq_comm]

/-- Witness for C10: an undotted private path resolves to its `.pub` sibling,
and a missing target yields the not-found error. -/
theorem lf_target_c10_witness :
    lfTarget ["id_ed25519", "id_ed25519.pub"] "id_ed25519" =
      withSuffix "id_ed25519" ".pub"
    ∧ get_fingerprint [] "missing" okRun = .error (.notFound "missing")
    ∧ get_key_type [] "missing" okRun = .error (.notFound "missing") := by
  refine ⟨?_, ?_, ?_⟩
  · exact (lf_target_c10 ["id_ed25519", "id_ed25519.pub"] "id_ed25519" okRun).1
      (by decide)
  · exact ((lf_target_c10 [] "missing" okRun).2.2.1 "missing").mpr
      ⟨by decide, by decide⟩
  · exact ((lf_target_c10 [] "missing" okRun).2.2.2 "missing").mpr
      ⟨by decide, by decide⟩
